import Mathlib

/-!
# BookShelfUI client state — verification development

A shallow embedding of the BookShelfUI Angular client's state logic:

* the data model (`src/app/models/book.model.ts`),
* the NGXS store reducers (`src/app/store/book.state.ts`, concatenated into
  `src/app/store/book.actions.ts` in this snapshot),
* the HTTP parameter serialization and error translation of `BookService`
  (`src/app/services/book.service.ts`),
* the list component's filter/sort/pagination controller
  (`BookListComponent` in `src/app/components/...`).

Modelling conventions: JS numbers are `Int` (ratings, which are 0-5 and may be
fractional, are `Rat`); `null`/`undefined` become `Option`; each NGXS handler
becomes a pure function `... → BookStateModel → BookStateModel` capturing its
synchronous `setState`/`patchState` effect. The `filteredBooks` selector's
filter stages and its comparator are embedded as written; the comparator never
returns 0, so it is not a consistent comparison function in the ECMAScript
sense and the order `Array.prototype.sort` produces on tied sort keys is
implementation-defined — the embedding therefore fixes no single model of the
sort's output and instead proves the comparator's inconsistency itself.
-/

set_option autoImplicit false

/-- `Book` DTO from `book.model.ts`. `createdAt`/`updatedAt` are epoch stamps. -/
structure Book where
  id : Int
  title : Option String
  author : Option String
  isbn : Option String
  publishedYear : Option Int
  genre : Option String
  status : Option String
  rating : Option Rat
  createdAt : Int
  updatedAt : Int
  deriving DecidableEq

/-- `StatusDto` lookup row. -/
structure StatusDto where
  statusId : Int
  statusName : Option String
  deriving DecidableEq

/-- `GenreDto` lookup row. -/
structure GenreDto where
  genreId : Int
  genreName : Option String
  deriving DecidableEq

/-- The six sortable columns (`BookFilter.sortBy` / `SortConfig.column`). -/
inductive SortBy where
  | title
  | author
  | rating
  | publishedYear
  | genre
  | status
  deriving DecidableEq

/-- Sort direction (`'asc' | 'desc'`). -/
inductive SortDir where
  | asc
  | desc
  deriving DecidableEq

/-- `BookFilter` from `book.model.ts`. -/
structure BookFilter where
  searchTerm : String
  statusId : Option Int
  genreId : Option Int
  sortBy : SortBy
  sortOrder : SortDir
  deriving DecidableEq

/-- The `pagination` slice of `BookStateModel`. -/
structure Pagination where
  currentPage : Int
  pageSize : Int
  totalCount : Int
  totalPages : Int
  deriving DecidableEq

/-- `BookStateModel` from `book.model.ts`: the single store root. -/
structure BookStateModel where
  books : List Book
  selectedBook : Option Book
  loading : Bool
  error : Option String
  filter : BookFilter
  statuses : List StatusDto
  genres : List GenreDto
  pagination : Pagination
  deriving DecidableEq

/-- `PaginationParams` from `book.model.ts` (request side). -/
structure PaginationParams where
  Page : Int
  PageSize : Int
  SearchText : Option String
  StatusId : Option Int
  GenreId : Option Int
  SortBy : Option String
  SortDir : Option SortDir
  deriving DecidableEq

/-- `PaginatedResponse<Book>` from `book.model.ts` (server side). -/
structure PaginatedResponse where
  items : List Book
  totalCount : Int
  page : Int
  pageSize : Int
  totalPages : Int
  deriving DecidableEq

/-- `CreateBookRequest` from `book.model.ts`. -/
structure CreateBookRequest where
  title : String
  author : String
  isbn : Option String
  publishedYear : Option Int
  genreId : Option Int
  statusId : Int
  rating : Option Rat
  deriving DecidableEq

/-- `UpdateBookRequest` = `CreateBookRequest` + `id`. -/
structure UpdateBookRequest where
  id : Int
  title : String
  author : String
  isbn : Option String
  publishedYear : Option Int
  genreId : Option Int
  statusId : Int
  rating : Option Rat
  deriving DecidableEq

/-- The default filter from the `@State` decorator's `defaults`. -/
def defaultBookFilter : BookFilter :=
  { searchTerm := ""
    statusId := none
    genreId := none
    sortBy := .title
    sortOrder := .asc }

/-- The store's default state from the `@State` decorator. -/
def initialBookState : BookStateModel :=
  { books := []
    selectedBook := none
    loading := false
    error := none
    filter := defaultBookFilter
    statuses := []
    genres := []
    pagination := { currentPage := 1, pageSize := 10, totalCount := 0, totalPages := 0 } }

namespace BookService

/-- Model of Angular's `HttpErrorResponse` as consumed by `BookService.handleError`:
`clientError = some m` models `error.error instanceof ErrorEvent` with message `m`
(a client-side transport exception); otherwise `status`/`message` describe the
server response (`status = 0` meaning the server was unreachable). -/
structure HttpErrorResponse where
  status : Int
  message : String
  clientError : Option String
  deriving DecidableEq

/-- `BookService.handleError`: collapses a transport failure into one string.
`apiUrl` is the service's `this.apiUrl`. -/
def handleError (apiUrl : String) (e : HttpErrorResponse) : String :=
  match e.clientError with
  | some m => "Network Error: " ++ m
  | none =>
    if e.status = 0 then
      "Connection Error: Unable to reach API at " ++ apiUrl ++
        ". Make sure the API server is running on port 7181 and CORS is configured."
    else
      "Server Error (" ++ toString e.status ++ "): " ++ e.message

/-- The query-parameter set produced by `BookService.getBooks` (the `HttpParams`
sent with `GET /Books/paged`); absent keys are `none`. -/
structure HttpBooksRequest where
  Page : Option String
  PageSize : Option String
  SearchText : Option String
  StatusId : Option String
  GenreId : Option String
  SortBy : Option String
  SortDir : Option String
  deriving DecidableEq

/-- Serialization of a `SortDir` value as sent on the wire. -/
def sortDirString : SortDir → String
  | .asc => "asc"
  | .desc => "desc"

/-- `BookService.getBooks` parameter serialization: `Page`/`PageSize` always set;
`SearchText`/`SortBy`/`SortDir` set only when truthy (non-empty / defined);
`StatusId`/`GenreId` set when neither `undefined` nor `null`. -/
def getBooksParams (p : PaginationParams) : HttpBooksRequest :=
  { Page := some (toString p.Page)
    PageSize := some (toString p.PageSize)
    SearchText :=
      match p.SearchText with
      | some s => if s = "" then none else some s
      | none => none
    StatusId :=
      match p.StatusId with
      | some i => some (toString i)
      | none => none
    GenreId :=
      match p.GenreId with
      | some i => some (toString i)
      | none => none
    SortBy :=
      match p.SortBy with
      | some s => if s = "" then none else some s
      | none => none
    SortDir :=
      match p.SortDir with
      | some d => some (sortDirString d)
      | none => none }

end BookService

namespace BookState

/-- `fetchPaginatedBooks` handler: `ctx.patchState(loading := true, error := null)`
before issuing the request. -/
def fetchPaginatedBooks (s : BookStateModel) : BookStateModel :=
  { s with loading := true, error := none }

/-- `fetchPaginatedBooksSuccess` handler: replace `books`, copy the four
pagination fields verbatim from the response, clear `loading`/`error`. -/
def fetchPaginatedBooksSuccess (resp : PaginatedResponse) (s : BookStateModel) :
    BookStateModel :=
  { s with
    books := resp.items
    pagination :=
      { currentPage := resp.page
        pageSize := resp.pageSize
        totalCount := resp.totalCount
        totalPages := resp.totalPages }
    loading := false
    error := none }

/-- `fetchPaginatedBooksError` handler. -/
def fetchPaginatedBooksError (msg : String) (s : BookStateModel) : BookStateModel :=
  { s with loading := false, error := some msg }

/-- `fetchBooks` handler (`patchState` part). -/
def fetchBooks (s : BookStateModel) : BookStateModel :=
  { s with loading := true, error := none }

/-- `fetchBooksSuccess` handler. -/
def fetchBooksSuccess (books : List Book) (s : BookStateModel) : BookStateModel :=
  { s with books := books, loading := false, error := none }

/-- `fetchBooksError` handler. -/
def fetchBooksError (msg : String) (s : BookStateModel) : BookStateModel :=
  { s with loading := false, error := some msg }

/-- `fetchBookById` handler (`patchState` part). -/
def fetchBookById (s : BookStateModel) : BookStateModel :=
  { s with loading := true, error := none }

/-- `fetchBookByIdSuccess` handler. -/
def fetchBookByIdSuccess (book : Book) (s : BookStateModel) : BookStateModel :=
  { s with selectedBook := some book, loading := false, error := none }

/-- `fetchBookByIdError` handler. -/
def fetchBookByIdError (msg : String) (s : BookStateModel) : BookStateModel :=
  { s with loading := false, error := some msg }

/-- `createBook` handler (`patchState` part). -/
def createBook (s : BookStateModel) : BookStateModel :=
  { s with loading := true, error := none }

/-- `createBookSuccess` handler: append the server-returned record. -/
def createBookSuccess (book : Book) (s : BookStateModel) : BookStateModel :=
  { s with books := s.books ++ [book], loading := false, error := none }

/-- `createBookError` handler. -/
def createBookError (msg : String) (s : BookStateModel) : BookStateModel :=
  { s with loading := false, error := some msg }

/-- `updateBook` handler (`patchState` part). -/
def updateBook (s : BookStateModel) : BookStateModel :=
  { s with loading := true, error := none }

/-- `updateBookSuccess` handler: replace-by-id in `books`, set `selectedBook`. -/
def updateBookSuccess (book : Book) (s : BookStateModel) : BookStateModel :=
  { s with
    books := s.books.map fun b => if b.id = book.id then book else b
    selectedBook := some book
    loading := false
    error := none }

/-- `updateBookError` handler. -/
def updateBookError (msg : String) (s : BookStateModel) : BookStateModel :=
  { s with loading := false, error := some msg }

/-- `deleteBook` handler (`patchState` part). -/
def deleteBook (s : BookStateModel) : BookStateModel :=
  { s with loading := true, error := none }

/-- `deleteBookSuccess` handler: `books.filter(book => book.id !== id)` and
clear `selectedBook` when it carried the deleted id. -/
def deleteBookSuccess (id : Int) (s : BookStateModel) : BookStateModel :=
  { s with
    books := s.books.filter fun b => b.id != id
    selectedBook :=
      match s.selectedBook with
      | some b => if b.id = id then none else some b
      | none => none
    loading := false
    error := none }

/-- `deleteBookError` handler. -/
def deleteBookError (msg : String) (s : BookStateModel) : BookStateModel :=
  { s with loading := false, error := some msg }

/-- `fetchStatusesSuccess` handler: only replaces `statuses`. -/
def fetchStatusesSuccess (statuses : List StatusDto) (s : BookStateModel) :
    BookStateModel :=
  { s with statuses := statuses }

/-- `fetchStatusesError` handler: empty body, no state change. -/
def fetchStatusesError (_msg : String) (s : BookStateModel) : BookStateModel :=
  s

/-- `fetchGenresSuccess` handler: only replaces `genres`. -/
def fetchGenresSuccess (genres : List GenreDto) (s : BookStateModel) :
    BookStateModel :=
  { s with genres := genres }

/-- `fetchGenresError` handler: snackbar only, no state change. -/
def fetchGenresError (_msg : String) (s : BookStateModel) : BookStateModel :=
  s

/-- `setFilter` handler: `filter := spread-merge` (the payload type carries all
fields, so the spread is a full replacement). -/
def setFilter (f : BookFilter) (s : BookStateModel) : BookStateModel :=
  { s with filter := f }

/-- `clearFilter` handler. -/
def clearFilter (s : BookStateModel) : BookStateModel :=
  { s with filter := defaultBookFilter }

/-- `clearSelectedBook` handler. -/
def clearSelectedBook (s : BookStateModel) : BookStateModel :=
  { s with selectedBook := none }

/-- The closed set of store actions from `book.actions.ts`. -/
inductive Action where
  | fetchPaginatedBooks (params : PaginationParams)
  | fetchPaginatedBooksSuccess (resp : PaginatedResponse)
  | fetchPaginatedBooksError (msg : String)
  | fetchBooks
  | fetchBooksSuccess (books : List Book)
  | fetchBooksError (msg : String)
  | fetchBookById (id : Int)
  | fetchBookByIdSuccess (book : Book)
  | fetchBookByIdError (msg : String)
  | createBook (req : CreateBookRequest)
  | createBookSuccess (book : Book)
  | createBookError (msg : String)
  | updateBook (req : UpdateBookRequest)
  | updateBookSuccess (book : Book)
  | updateBookError (msg : String)
  | deleteBook (id : Int)
  | deleteBookSuccess (id : Int)
  | deleteBookError (msg : String)
  | fetchStatuses
  | fetchStatusesSuccess (statuses : List StatusDto)
  | fetchStatusesError (msg : String)
  | fetchGenres
  | fetchGenresSuccess (genres : List GenreDto)
  | fetchGenresError (msg : String)
  | setBookFilter (f : BookFilter)
  | clearBookFilter
  | clearSelectedBook
  deriving DecidableEq

/-- One dispatched action's synchronous state transition (the `@Action` handler
bodies; `fetchStatuses`/`fetchGenres` only issue requests). -/
def reduce : Action → BookStateModel → BookStateModel
  | .fetchPaginatedBooks _, s => fetchPaginatedBooks s
  | .fetchPaginatedBooksSuccess r, s => fetchPaginatedBooksSuccess r s
  | .fetchPaginatedBooksError m, s => fetchPaginatedBooksError m s
  | .fetchBooks, s => fetchBooks s
  | .fetchBooksSuccess bs, s => fetchBooksSuccess bs s
  | .fetchBooksError m, s => fetchBooksError m s
  | .fetchBookById _, s => fetchBookById s
  | .fetchBookByIdSuccess b, s => fetchBookByIdSuccess b s
  | .fetchBookByIdError m, s => fetchBookByIdError m s
  | .createBook _, s => createBook s
  | .createBookSuccess b, s => createBookSuccess b s
  | .createBookError m, s => createBookError m s
  | .updateBook _, s => updateBook s
  | .updateBookSuccess b, s => updateBookSuccess b s
  | .updateBookError m, s => updateBookError m s
  | .deleteBook _, s => deleteBook s
  | .deleteBookSuccess i, s => deleteBookSuccess i s
  | .deleteBookError m, s => deleteBookError m s
  | .fetchStatuses, s => s
  | .fetchStatusesSuccess sts, s => fetchStatusesSuccess sts s
  | .fetchStatusesError m, s => fetchStatusesError m s
  | .fetchGenres, s => s
  | .fetchGenresSuccess gs, s => fetchGenresSuccess gs s
  | .fetchGenresError m, s => fetchGenresError m s
  | .setBookFilter f, s => setFilter f s
  | .clearBookFilter, s => clearFilter s
  | .clearSelectedBook, s => clearSelectedBook s

end BookState

/-- A concrete book used in scenario witnesses. -/
def bookA : Book :=
  { id := 1, title := some "A Tale", author := some "Ann", isbn := none
    publishedYear := some 1999, genre := some "Fiction", status := some "Read"
    rating := some 4, createdAt := 0, updatedAt := 0 }

/-- A concrete book used in scenario witnesses. -/
def bookB : Book :=
  { id := 2, title := some "Brave New Code", author := some "Ben", isbn := none
    publishedYear := some 2005, genre := some "SciFi", status := some "Reading"
    rating := some 5, createdAt := 0, updatedAt := 0 }

/-- A concrete book used in scenario witnesses. -/
def bookC : Book :=
  { id := 3, title := some "Cosmos", author := some "Carl", isbn := none
    publishedYear := some 1980, genre := some "Science", status := some "Read"
    rating := none, createdAt := 0, updatedAt := 0 }

/-- Response of the more recently issued request in the C3 scenario. -/
def respNew : PaginatedResponse :=
  { items := [bookB], totalCount := 1, page := 1, pageSize := 10, totalPages := 1 }

/-- Response of the older (superseded) request in the C3 scenario. -/
def respOld : PaginatedResponse :=
  { items := [bookA], totalCount := 1, page := 1, pageSize := 10, totalPages := 1 }

namespace BookList

/-- `SortConfig` from `BookListComponent`. -/
structure SortConfig where
  column : SortBy
  direction : SortDir
  deriving DecidableEq

/-- The component's local signal state: search term, genre/status selections,
sort configuration and pagination parameters. -/
structure Ctrl where
  searchTerm : String
  selectedGenreId : Option Int
  selectedStatusId : Option Int
  sortConfig : SortConfig
  currentPage : Int
  pageSize : Int
  deriving DecidableEq

/-- The wire name of a sort column (the component's union-typed strings). -/
def sortByName : SortBy → String
  | .title => "title"
  | .author => "author"
  | .rating => "rating"
  | .publishedYear => "publishedYear"
  | .genre => "genre"
  | .status => "status"

/-- `loadData`: build the `PaginationParams` from the current signals.
`searchTerm() || undefined` drops the empty string; the id selections use
`|| undefined`, which also drops a zero id. -/
def loadData (c : Ctrl) : PaginationParams :=
  { Page := c.currentPage
    PageSize := c.pageSize
    SearchText := if c.searchTerm = "" then none else some c.searchTerm
    StatusId :=
      match c.selectedStatusId with
      | some i => if i = 0 then none else some i
      | none => none
    GenreId :=
      match c.selectedGenreId with
      | some i => if i = 0 then none else some i
      | none => none
    SortBy := some (sortByName c.sortConfig.column)
    SortDir := some c.sortConfig.direction }

/-- `onSearch`: set the term, then reset to page 1 (before `loadData`). -/
def onSearch (term : String) (c : Ctrl) : Ctrl :=
  { c with searchTerm := term, currentPage := 1 }

/-- `onGenreChange`: the raw select string is parsed to an id (`''` gives
`null`); that parsed value is the argument here. Resets to page 1. -/
def onGenreChange (id : Option Int) (c : Ctrl) : Ctrl :=
  { c with selectedGenreId := id, currentPage := 1 }

/-- `onStatusChange`: as `onGenreChange` for the status id. -/
def onStatusChange (id : Option Int) (c : Ctrl) : Ctrl :=
  { c with selectedStatusId := id, currentPage := 1 }

/-- The sort-config update inside `onSortChange`: same column toggles the
direction, a new column starts ascending. -/
def sortToggle (cur : SortConfig) (col : SortBy) : SortConfig :=
  if cur.column = col then
    { column := col, direction := if cur.direction = .asc then .desc else .asc }
  else
    { column := col, direction := .asc }

/-- `onSortChange`: update the sort config and reset to page 1. -/
def onSortChange (col : SortBy) (c : Ctrl) : Ctrl :=
  { c with sortConfig := sortToggle c.sortConfig col, currentPage := 1 }

/-- `changePageSize`: set the size and reset to page 1. -/
def changePageSize (size : Int) (c : Ctrl) : Ctrl :=
  { c with pageSize := size, currentPage := 1 }

/-- The five filter-setting gestures of the list component. -/
inductive FilterOp where
  | search (term : String)
  | genre (id : Option Int)
  | status (id : Option Int)
  | sort (col : SortBy)
  | pageSize (size : Int)
  deriving DecidableEq

/-- Dispatch one gesture to its handler. -/
def applyOp : FilterOp → Ctrl → Ctrl
  | .search t, c => onSearch t c
  | .genre g, c => onGenreChange g c
  | .status i, c => onStatusChange i c
  | .sort col, c => onSortChange col c
  | .pageSize n, c => changePageSize n c

/-- Apply a sequence of gestures left to right. -/
def applyOps : List FilterOp → Ctrl → Ctrl
  | [], c => c
  | op :: rest, c => applyOps rest (applyOp op c)

/-- The last-set search term of a gesture sequence (default: the prior value). -/
def lastSearch : List FilterOp → String → String
  | [], d => d
  | .search t :: rest, _ => lastSearch rest t
  | _ :: rest, d => lastSearch rest d

/-- The last-set genre selection of a gesture sequence. -/
def lastGenre : List FilterOp → Option Int → Option Int
  | [], d => d
  | .genre g :: rest, _ => lastGenre rest g
  | _ :: rest, d => lastGenre rest d

/-- The last-set status selection of a gesture sequence. -/
def lastStatus : List FilterOp → Option Int → Option Int
  | [], d => d
  | .status i :: rest, _ => lastStatus rest i
  | _ :: rest, d => lastStatus rest d

/-- The sort configuration after a gesture sequence (each sort click folds
through `sortToggle`). -/
def lastSort : List FilterOp → SortConfig → SortConfig
  | [], d => d
  | .sort col :: rest, d => lastSort rest (sortToggle d col)
  | _ :: rest, d => lastSort rest d

/-- The last-set page size of a gesture sequence. -/
def lastPageSize : List FilterOp → Int → Int
  | [], d => d
  | .pageSize n :: rest, _ => lastPageSize rest n
  | _ :: rest, d => lastPageSize rest d

end BookList

/-- A concrete controller state (the component's initial signal values). -/
def ctrl0 : BookList.Ctrl :=
  { searchTerm := ""
    selectedGenreId := none
    selectedStatusId := none
    sortConfig := { column := .title, direction := .asc }
    currentPage := 1
    pageSize := 10 }

/-- Composition of the controller's `|| undefined` dropping of a zero/null id
with the service's serialization of a present id. -/
def optIdParam : Option Int → Option String
  | some i => if i = 0 then none else some (toString i)
  | none => none

/-- A concrete store state for the C4 witness: three distinct books, the
middle one selected. -/
def stateABC : BookStateModel :=
  { initialBookState with books := [bookA, bookB, bookC], selectedBook := some bookB }

/-- A concrete store state carrying an error, for the C9 counterexample. -/
def stateWithError : BookStateModel :=
  { initialBookState with error := some "boom" }

/-- A concrete transport failure (unreachable server) for the C9 witness. -/
def connErr : BookService.HttpErrorResponse :=
  { status := 0, message := "Http failure response", clientError := none }

namespace BookState

/-- JS `haystack.includes(needle)` on strings. -/
def strIncludes (hay needle : String) : Bool :=
  decide (needle.toList <:+: hay.toList)

/-- The search predicate of `filteredBooks`:
`(title?.toLowerCase().includes(term) || false) || (author?... || false)`. -/
def matchesSearch (term : String) (book : Book) : Bool :=
  (match book.title with
   | some t => strIncludes t.toLower term
   | none => false) ||
  (match book.author with
   | some a => strIncludes a.toLower term
   | none => false)

/-- The three filter stages of the `filteredBooks` selector (search, genre,
status), before sorting. The genre lookup runs inside the per-book callback,
the status lookup once outside, exactly as in the source. -/
def applyFilters (state : BookStateModel) : List Book :=
  let filtered := state.books
  let filtered :=
    if state.filter.searchTerm = "" then filtered
    else
      let term := state.filter.searchTerm.toLower
      filtered.filter (matchesSearch term)
  let filtered :=
    match state.filter.genreId with
    | some gid =>
      filtered.filter fun book =>
        match state.genres.find? (fun g => g.genreId == gid) with
        | some g => book.genre == g.genreName
        | none => false
    | none => filtered
  let filtered :=
    match state.filter.statusId with
    | some sid =>
      match state.statuses.find? (fun st => st.statusId == sid) with
      | some st => filtered.filter fun book => book.status == st.statusName
      | none => filtered
    | none => filtered
  filtered

/-- The selector's comparator on one pair of extracted field values:
`asc` returns `aVal > bVal ? 1 : -1`, `desc` returns `aVal < bVal ? 1 : -1`
(it never returns 0). -/
def jsCmp {α : Type} [LinearOrder α] (ord : SortDir) (aVal bVal : α) : Int :=
  match ord with
  | .asc => if aVal > bVal then 1 else -1
  | .desc => if aVal < bVal then 1 else -1

/-- The selector's comparator: extract the field chosen by `sortBy`
(with `|| ''` / `|| 0` defaults) and compare. -/
def jsCompare (f : BookFilter) (a b : Book) : Int :=
  match f.sortBy with
  | .title => jsCmp f.sortOrder (a.title.getD "") (b.title.getD "")
  | .author => jsCmp f.sortOrder (a.author.getD "") (b.author.getD "")
  | .genre => jsCmp f.sortOrder (a.genre.getD "") (b.genre.getD "")
  | .status => jsCmp f.sortOrder (a.status.getD "") (b.status.getD "")
  | .rating => jsCmp f.sortOrder (a.rating.getD 0) (b.rating.getD 0)
  | .publishedYear => jsCmp f.sortOrder (a.publishedYear.getD 0) (b.publishedYear.getD 0)

end BookState

/-- A concrete book for the C7 tie scenario: same title as `bookDupB`. -/
def bookDupA : Book :=
  { id := 1, title := some "Dup", author := some "Ann", isbn := none
    publishedYear := some 1999, genre := none, status := none
    rating := some 4, createdAt := 0, updatedAt := 0 }

/-- A concrete book for the C7 tie scenario: same title as `bookDupA`. -/
def bookDupB : Book :=
  { id := 2, title := some "Dup", author := some "Ben", isbn := none
    publishedYear := some 2005, genre := none, status := none
    rating := some 5, createdAt := 0, updatedAt := 0 }

/-- Sort by title ascending, no search/genre/status filtering. -/
def titleAscFilter : BookFilter :=
  { searchTerm := ""
    statusId := none
    genreId := none
    sortBy := .title
    sortOrder := .asc }

/-- Non-empty strings stay non-empty under left append. -/
theorem append_ne_empty_left (a b : String) (h : a ≠ "") : a ++ b ≠ "" := by
  intro hab
  apply h
  have hd : (a ++ b).data = ("" : String).data := congrArg String.data hab
  rw [String.data_append] at hd
  have : a.data = [] := List.append_eq_nil.mp hd |>.1
  cases a
  simp_all

/-- Whatever the failure, `handleError` produces a non-empty message. -/
theorem handleError_ne_empty (apiUrl : String) (e : BookService.HttpErrorResponse) :
    BookService.handleError apiUrl e ≠ "" := by
  unfold BookService.handleError
  rcases e with ⟨st, msg, ce⟩
  cases ce with
  | some m =>
    apply append_ne_empty_left
    decide
  | none =>
    dsimp only
    split
    · apply append_ne_empty_left
      apply append_ne_empty_left
      decide
    · apply append_ne_empty_left
      apply append_ne_empty_left
      apply append_ne_empty_left
      decide

/-- C1: a failing paginated fetch keeps the previous `books` and `pagination`
untouched, sets `loading := false`, and stores the (non-empty) message produced
by `BookService.handleError` in `error`. -/
theorem fetchPaginatedBooksError_spec (s : BookStateModel) (apiUrl : String)
    (e : BookService.HttpErrorResponse) :
    (BookState.fetchPaginatedBooksError (BookService.handleError apiUrl e) s).books
        = s.books ∧
    (BookState.fetchPaginatedBooksError (BookService.handleError apiUrl e) s).pagination
        = s.pagination ∧
    (BookState.fetchPaginatedBooksError (BookService.handleError apiUrl e) s).loading
        = false ∧
    (BookState.fetchPaginatedBooksError (BookService.handleError apiUrl e) s).error
        = some (BookService.handleError apiUrl e) ∧
    BookService.handleError apiUrl e ≠ "" :=
  ⟨rfl, rfl, rfl, rfl, handleError_ne_empty apiUrl e⟩

/-- C2: dispatching a paginated fetch sets `loading := true`, `error := null`;
its success replaces `books` with the response items and copies the four
pagination fields verbatim, clearing `loading`/`error`; in particular a
response with 3 items, `totalCount = 3`, `totalPages = 1` yields three books
and `totalPages = 1`. -/
theorem fetchPaginatedBooksSuccess_spec (s : BookStateModel)
    (resp : PaginatedResponse) :
    (BookState.fetchPaginatedBooks s).loading = true ∧
    (BookState.fetchPaginatedBooks s).error = none ∧
    (BookState.fetchPaginatedBooksSuccess resp s).books = resp.items ∧
    (BookState.fetchPaginatedBooksSuccess resp s).pagination
        = { currentPage := resp.page, pageSize := resp.pageSize
            totalCount := resp.totalCount, totalPages := resp.totalPages } ∧
    (BookState.fetchPaginatedBooksSuccess resp s).loading = false ∧
    (BookState.fetchPaginatedBooksSuccess resp s).error = none ∧
    (BookState.fetchPaginatedBooksSuccess
        { items := [bookA, bookB, bookC], totalCount := 3
          page := 1, pageSize := 10, totalPages := 1 } s).books.length = 3 ∧
    (BookState.fetchPaginatedBooksSuccess
        { items := [bookA, bookB, bookC], totalCount := 3
          page := 1, pageSize := 10, totalPages := 1 } s).pagination.totalPages = 1 :=
  ⟨rfl, rfl, rfl, rfl, rfl, rfl, rfl, rfl⟩

/-- C3: the reducer applies any `FetchPaginatedBooksSuccess` unconditionally
(no request token is compared at apply-time), so a stale response that arrives
after a newer one silently overwrites it — last response wins. -/
theorem staleResponse_overwrites :
    (BookState.reduce (.fetchPaginatedBooksSuccess respOld)
        (BookState.reduce (.fetchPaginatedBooksSuccess respNew) initialBookState)).books
      = respOld.items ∧
    respOld.items ≠ respNew.items :=
  ⟨rfl, by decide⟩

namespace BookList

/-- Each controller field after a gesture sequence is exactly its last-set
value; the page is 1 as soon as any gesture occurred. -/
theorem applyOps_fields (ops : List FilterOp) (c0 : Ctrl) :
    (applyOps ops c0).searchTerm = lastSearch ops c0.searchTerm ∧
    (applyOps ops c0).selectedGenreId = lastGenre ops c0.selectedGenreId ∧
    (applyOps ops c0).selectedStatusId = lastStatus ops c0.selectedStatusId ∧
    (applyOps ops c0).sortConfig = lastSort ops c0.sortConfig ∧
    (applyOps ops c0).pageSize = lastPageSize ops c0.pageSize ∧
    (applyOps ops c0).currentPage = (if ops.isEmpty then c0.currentPage else 1) := by
  induction ops generalizing c0 with
  | nil => exact ⟨rfl, rfl, rfl, rfl, rfl, rfl⟩
  | cons op rest ih =>
    obtain ⟨h1, h2, h3, h4, h5, h6⟩ := ih (applyOp op c0)
    have hpage : (applyOps (op :: rest) c0).currentPage = 1 := by
      rw [show applyOps (op :: rest) c0 = applyOps rest (applyOp op c0) from rfl, h6]
      have : (applyOp op c0).currentPage = 1 := by
        cases op <;> rfl
      split <;> simp [this]
    cases op <;>
      exact ⟨h1, h2, h3, h4, h5, by simpa using hpage⟩

end BookList

/-- C5: clicking the currently active sort column twice returns the direction
to its original value; one click on a different column always yields that
column ascending. -/
theorem onSortChange_spec (c : BookList.Ctrl) (col : SortBy) :
    (col = c.sortConfig.column →
      (BookList.onSortChange col (BookList.onSortChange col c)).sortConfig.direction
        = c.sortConfig.direction) ∧
    (col ≠ c.sortConfig.column →
      (BookList.onSortChange col c).sortConfig
        = { column := col, direction := .asc }) := by
  constructor
  · intro h
    rcases hc : c.sortConfig with ⟨cc, cd⟩
    rw [hc] at h
    cases cd <;>
      simp [BookList.onSortChange, BookList.sortToggle, hc, h.symm]
  · intro h
    have : ¬ c.sortConfig.column = col := fun he => h he.symm
    simp [BookList.onSortChange, BookList.sortToggle, this]

/-- Witness for C5 at a concrete controller state. -/
theorem onSortChange_spec_witness :
    (SortBy.title = ctrl0.sortConfig.column ∧
      (BookList.onSortChange .title (BookList.onSortChange .title ctrl0)).sortConfig.direction
        = ctrl0.sortConfig.direction) ∧
    (SortBy.author ≠ ctrl0.sortConfig.column ∧
      (BookList.onSortChange .author ctrl0).sortConfig
        = { column := .author, direction := .asc }) :=
  ⟨⟨rfl, (onSortChange_spec ctrl0 .title).1 rfl⟩,
   ⟨by decide, (onSortChange_spec ctrl0 .author).2 (by decide)⟩⟩

/-- C6: each of the five filter/sort/page-size gestures issues its fetch with
`Page = 1`, whatever the prior controller state. -/
theorem filterChange_resets_page (c : BookList.Ctrl) (term : String)
    (g st : Option Int) (col : SortBy) (n : Int) :
    (BookList.loadData (BookList.onSearch term c)).Page = 1 ∧
    (BookList.loadData (BookList.onGenreChange g c)).Page = 1 ∧
    (BookList.loadData (BookList.onStatusChange st c)).Page = 1 ∧
    (BookList.loadData (BookList.onSortChange col c)).Page = 1 ∧
    (BookList.loadData (BookList.changePageSize n c)).Page = 1 :=
  ⟨rfl, rfl, rfl, rfl, rfl⟩

/-- C8: after any sequence of filter-setting gestures, the parameters of the
next fetch reflect exactly the last-set values — no stale leakage. -/
theorem requestParams_reflect_lastSet (ops : List BookList.FilterOp)
    (c0 : BookList.Ctrl) :
    (BookService.getBooksParams (BookList.loadData (BookList.applyOps ops c0))).SearchText
        = (if BookList.lastSearch ops c0.searchTerm = "" then none
           else some (BookList.lastSearch ops c0.searchTerm)) ∧
    (BookService.getBooksParams (BookList.loadData (BookList.applyOps ops c0))).GenreId
        = optIdParam (BookList.lastGenre ops c0.selectedGenreId) ∧
    (BookService.getBooksParams (BookList.loadData (BookList.applyOps ops c0))).StatusId
        = optIdParam (BookList.lastStatus ops c0.selectedStatusId) ∧
    (BookService.getBooksParams (BookList.loadData (BookList.applyOps ops c0))).SortBy
        = some (BookList.sortByName (BookList.lastSort ops c0.sortConfig).column) ∧
    (BookService.getBooksParams (BookList.loadData (BookList.applyOps ops c0))).SortDir
        = some (BookService.sortDirString (BookList.lastSort ops c0.sortConfig).direction) ∧
    (BookService.getBooksParams (BookList.loadData (BookList.applyOps ops c0))).PageSize
        = some (toString (BookList.lastPageSize ops c0.pageSize)) ∧
    (BookService.getBooksParams (BookList.loadData (BookList.applyOps ops c0))).Page
        = some (toString (if ops.isEmpty then c0.currentPage else 1)) := by
  obtain ⟨h1, h2, h3, h4, h5, h6⟩ := BookList.applyOps_fields ops c0
  refine ⟨?_, ?_, ?_, ?_, ?_, ?_, ?_⟩
  · rw [show (BookService.getBooksParams (BookList.loadData (BookList.applyOps ops c0))).SearchText
        = (match (if (BookList.applyOps ops c0).searchTerm = "" then none
                  else some (BookList.applyOps ops c0).searchTerm : Option String) with
           | some s => if s = "" then none else some s
           | none => none) from rfl, h1]
    by_cases hT : BookList.lastSearch ops c0.searchTerm = "" <;> simp [hT]
  · rw [show (BookService.getBooksParams (BookList.loadData (BookList.applyOps ops c0))).GenreId
        = (match (match (BookList.applyOps ops c0).selectedGenreId with
                  | some i => if i = 0 then none else some i
                  | none => none : Option Int) with
           | some i => some (toString i)
           | none => none) from rfl, h2]
    rcases BookList.lastGenre ops c0.selectedGenreId with _ | i
    · rfl
    · by_cases hz : i = 0 <;> simp [hz, optIdParam]
  · rw [show (BookService.getBooksParams (BookList.loadData (BookList.applyOps ops c0))).StatusId
        = (match (match (BookList.applyOps ops c0).selectedStatusId with
                  | some i => if i = 0 then none else some i
                  | none => none : Option Int) with
           | some i => some (toString i)
           | none => none) from rfl, h3]
    rcases BookList.lastStatus ops c0.selectedStatusId with _ | i
    · rfl
    · by_cases hz : i = 0 <;> simp [hz, optIdParam]
  · rw [show (BookService.getBooksParams (BookList.loadData (BookList.applyOps ops c0))).SortBy
        = (if BookList.sortByName (BookList.applyOps ops c0).sortConfig.column = ""
           then none
           else some (BookList.sortByName (BookList.applyOps ops c0).sortConfig.column))
        from rfl, h4]
    cases (BookList.lastSort ops c0.sortConfig).column <;> simp [BookList.sortByName]
  · rw [show (BookService.getBooksParams (BookList.loadData (BookList.applyOps ops c0))).SortDir
        = some (BookService.sortDirString (BookList.applyOps ops c0).sortConfig.direction)
        from rfl, h4]
  · rw [show (BookService.getBooksParams (BookList.loadData (BookList.applyOps ops c0))).PageSize
        = some (toString (BookList.applyOps ops c0).pageSize) from rfl, h5]
  · rw [show (BookService.getBooksParams (BookList.loadData (BookList.applyOps ops c0))).Page
        = some (toString (BookList.applyOps ops c0).currentPage) from rfl, h6]

/-- Filtering out a uniquely occurring id removes exactly that element and
keeps every other element in place. -/
theorem filter_ne_of_unique_id (l : List Book) (id : Int)
    (hnd : l.Pairwise fun a b => a.id ≠ b.id) (h : ∃ b ∈ l, b.id = id) :
    ∃ l1 b l2, l = l1 ++ b :: l2 ∧ b.id = id ∧
      (l.filter fun b => b.id != id) = l1 ++ l2 := by
  induction l with
  | nil =>
    rcases h with ⟨b, hb, _⟩
    exact absurd hb (List.not_mem_nil b)
  | cons x xs ih =>
    rw [List.pairwise_cons] at hnd
    by_cases hx : x.id = id
    · refine ⟨[], x, xs, rfl, hx, ?_⟩
      have hpx : (x.id != id) = false := by simp [hx]
      rw [List.filter_cons, hpx]
      simp only [Bool.false_eq_true, if_false, List.nil_append]
      apply List.filter_eq_self.mpr
      intro b hb
      simp only [bne_iff_ne, ne_eq, decide_eq_true_eq]
      intro he
      exact hnd.1 b hb (hx.trans he.symm)
    · rcases h with ⟨b, hb, hbid⟩
      have hbxs : b ∈ xs := by
        rcases List.mem_cons.mp hb with h1 | h1
        · subst h1
          exact absurd hbid hx
        · exact h1
      rcases ih hnd.2 ⟨b, hbxs, hbid⟩ with ⟨l1, bb, l2, heq, hbid2, hfil⟩
      refine ⟨x :: l1, bb, l2, by rw [heq]; rfl, hbid2, ?_⟩
      have hpx : (x.id != id) = true := by simpa [bne_iff_ne] using hx
      rw [List.filter_cons, hpx]
      simp [hfil]

/-- C4: on a state whose books carry pairwise distinct ids, a successful
delete removes exactly the one matching record (others unchanged, in order),
leaves the list untouched when no record matches, and clears `selectedBook`
exactly when the selected book carried the deleted id. -/
theorem deleteBookSuccess_spec (s : BookStateModel) (id : Int)
    (hnd : s.books.Pairwise fun a b => a.id ≠ b.id) :
    ((∃ b ∈ s.books, b.id = id) →
      ∃ l1 b l2, s.books = l1 ++ b :: l2 ∧ b.id = id ∧
        (BookState.deleteBookSuccess id s).books = l1 ++ l2) ∧
    ((∀ b ∈ s.books, b.id ≠ id) →
      (BookState.deleteBookSuccess id s).books = s.books) ∧
    (BookState.deleteBookSuccess id s).selectedBook =
      (match s.selectedBook with
       | some b => if b.id = id then none else some b
       | none => none) := by
  refine ⟨?_, ?_, rfl⟩
  · intro h
    exact filter_ne_of_unique_id s.books id hnd h
  · intro h
    show (s.books.filter fun b => b.id != id) = s.books
    apply List.filter_eq_self.mpr
    intro b hb
    simpa [bne_iff_ne] using h b hb

/-- Witness for C4: deleting id 2 from `[bookA, bookB, bookC]` with `bookB`
selected. -/
theorem deleteBookSuccess_spec_witness :
    (stateABC.books.Pairwise fun a b => a.id ≠ b.id) ∧
    (((∃ b ∈ stateABC.books, b.id = 2) →
        ∃ l1 b l2, stateABC.books = l1 ++ b :: l2 ∧ b.id = 2 ∧
          (BookState.deleteBookSuccess 2 stateABC).books = l1 ++ l2) ∧
     ((∀ b ∈ stateABC.books, b.id ≠ 2) →
        (BookState.deleteBookSuccess 2 stateABC).books = stateABC.books) ∧
     (BookState.deleteBookSuccess 2 stateABC).selectedBook =
       (match stateABC.selectedBook with
        | some b => if b.id = 2 then none else some b
        | none => none)) :=
  ⟨by decide, deleteBookSuccess_spec stateABC 2 (by decide)⟩

/-- C9 counterexample: `fetchStatusesSuccess` is a successful operation, yet it
does not set `state.error` back to null — refuting "every successful operation
setting it back to null" as stated. -/
theorem fetchStatusesSuccess_keeps_error :
    (BookState.fetchStatusesSuccess [] stateWithError).error = some "boom" ∧
    some "boom" ≠ (none : Option String) :=
  ⟨rfl, by decide⟩

/-- C9 (amended): the six book-collection operations attach the single
non-empty `handleError` string on failure (its shape distinguishing client
transport exception, unreachable server, and non-2xx response with status
code); their successes — and already their dispatches — reset `error` to null;
the lookup fetches never touch `error`. -/
theorem errorHandling_amended_spec (s : BookStateModel) (apiUrl msg : String)
    (e : BookService.HttpErrorResponse) (resp : PaginatedResponse)
    (books : List Book) (bk : Book) (id : Int)
    (sts : List StatusDto) (gs : List GenreDto) :
    ((BookState.fetchPaginatedBooksError msg s).error = some msg ∧
     (BookState.fetchBooksError msg s).error = some msg ∧
     (BookState.fetchBookByIdError msg s).error = some msg ∧
     (BookState.createBookError msg s).error = some msg ∧
     (BookState.updateBookError msg s).error = some msg ∧
     (BookState.deleteBookError msg s).error = some msg) ∧
    (BookService.handleError apiUrl e ≠ "" ∧
     (∀ m, e.clientError = some m →
        BookService.handleError apiUrl e = "Network Error: " ++ m) ∧
     (e.clientError = none → e.status = 0 →
        BookService.handleError apiUrl e =
          "Connection Error: Unable to reach API at " ++ apiUrl ++
            ". Make sure the API server is running on port 7181 and CORS is configured.") ∧
     (e.clientError = none → e.status ≠ 0 →
        BookService.handleError apiUrl e =
          "Server Error (" ++ toString e.status ++ "): " ++ e.message)) ∧
    ((BookState.fetchPaginatedBooksSuccess resp s).error = none ∧
     (BookState.fetchBooksSuccess books s).error = none ∧
     (BookState.fetchBookByIdSuccess bk s).error = none ∧
     (BookState.createBookSuccess bk s).error = none ∧
     (BookState.updateBookSuccess bk s).error = none ∧
     (BookState.deleteBookSuccess id s).error = none) ∧
    ((BookState.fetchPaginatedBooks s).error = none ∧
     (BookState.fetchBooks s).error = none ∧
     (BookState.fetchBookById s).error = none ∧
     (BookState.createBook s).error = none ∧
     (BookState.updateBook s).error = none ∧
     (BookState.deleteBook s).error = none) ∧
    ((BookState.fetchStatusesSuccess sts s).error = s.error ∧
     (BookState.fetchStatusesError msg s).error = s.error ∧
     (BookState.fetchGenresSuccess gs s).error = s.error ∧
     (BookState.fetchGenresError msg s).error = s.error) := by
  refine ⟨⟨rfl, rfl, rfl, rfl, rfl, rfl⟩, ⟨?_, ?_, ?_, ?_⟩,
    ⟨rfl, rfl, rfl, rfl, rfl, rfl⟩, ⟨rfl, rfl, rfl, rfl, rfl, rfl⟩,
    ⟨rfl, rfl, rfl, rfl⟩⟩
  · exact handleError_ne_empty apiUrl e
  · intro m hm
    unfold BookService.handleError
    rw [hm]
  · intro hce hst
    unfold BookService.handleError
    rw [hce]
    simp only [hst, if_true]
  · intro hce hst
    unfold BookService.handleError
    rw [hce]
    exact if_neg hst

/-- Witness for C9 (amended) at a concrete failing fetch. -/
theorem errorHandling_amended_spec_witness :
    (BookState.fetchPaginatedBooksError
        (BookService.handleError "u" connErr) stateWithError).error
      = some (BookService.handleError "u" connErr) ∧
    BookService.handleError "u" connErr =
      "Connection Error: Unable to reach API at u" ++
        ". Make sure the API server is running on port 7181 and CORS is configured." :=
  ⟨(errorHandling_amended_spec stateWithError "u"
      (BookService.handleError "u" connErr) connErr respNew [] bookA 1 [] []).1.1,
   by
    have h := (errorHandling_amended_spec stateWithError "u" "m" connErr respNew
        [] bookA 1 [] []).2.1.2.2.1 rfl rfl
    rw [h]
    decide⟩

/-- C10: create/update/delete successes leave `pagination`, `filter`,
`statuses` and `genres` untouched, and no action other than
`FetchPaginatedBooksSuccess` ever modifies `pagination`. -/
theorem cudSuccess_frame (s : BookStateModel) (b u : Book) (id : Int) :
    ((BookState.createBookSuccess b s).pagination = s.pagination ∧
     (BookState.createBookSuccess b s).filter = s.filter ∧
     (BookState.createBookSuccess b s).statuses = s.statuses ∧
     (BookState.createBookSuccess b s).genres = s.genres) ∧
    ((BookState.updateBookSuccess u s).pagination = s.pagination ∧
     (BookState.updateBookSuccess u s).filter = s.filter ∧
     (BookState.updateBookSuccess u s).statuses = s.statuses ∧
     (BookState.updateBookSuccess u s).genres = s.genres) ∧
    ((BookState.deleteBookSuccess id s).pagination = s.pagination ∧
     (BookState.deleteBookSuccess id s).filter = s.filter ∧
     (BookState.deleteBookSuccess id s).statuses = s.statuses ∧
     (BookState.deleteBookSuccess id s).genres = s.genres) ∧
    (∀ a : BookState.Action,
      (∀ resp, a ≠ BookState.Action.fetchPaginatedBooksSuccess resp) →
      (BookState.reduce a s).pagination = s.pagination) := by
  refine ⟨⟨rfl, rfl, rfl, rfl⟩, ⟨rfl, rfl, rfl, rfl⟩, ⟨rfl, rfl, rfl, rfl⟩, ?_⟩
  intro a h
  cases a <;> first
    | rfl
    | exact absurd rfl (h _)

/-- Witness for C10: the frame conditions at a concrete state and a concrete
non-paginated action. -/
theorem cudSuccess_frame_witness :
    ((BookState.createBookSuccess bookA stateABC).pagination = stateABC.pagination ∧
     (BookState.createBookSuccess bookA stateABC).filter = stateABC.filter ∧
     (BookState.createBookSuccess bookA stateABC).statuses = stateABC.statuses ∧
     (BookState.createBookSuccess bookA stateABC).genres = stateABC.genres) ∧
    (BookState.reduce .clearSelectedBook stateABC).pagination = stateABC.pagination :=
  ⟨(cudSuccess_frame stateABC bookA bookB 3).1,
   (cudSuccess_frame stateABC bookA bookB 3).2.2.2 BookState.Action.clearSelectedBook
     fun _ h => BookState.Action.noConfusion h⟩

/-- C7: the selector's comparator never returns 0, and two distinct books
with equal sort keys each compare strictly before the other. It is therefore
not a consistent comparison function, so ECMAScript leaves the order
`filtered.sort` produces on tied keys implementation-defined (V8, for one,
places a later tied element before an earlier one) — the code cannot
guarantee the claimed stable, original-order tie-breaking. -/
theorem jsCompare_inconsistent :
    BookState.jsCompare titleAscFilter bookDupA bookDupB = -1 ∧
    BookState.jsCompare titleAscFilter bookDupB bookDupA = -1 ∧
    bookDupA ≠ bookDupB ∧
    ∀ (f : BookFilter) (a b : Book), BookState.jsCompare f a b ≠ 0 := by
  refine ⟨?_, ?_, by decide, ?_⟩
  · show BookState.jsCmp .asc ("Dup" : String) "Dup" = -1
    rw [BookState.jsCmp, if_neg (lt_irrefl _)]
  · show BookState.jsCmp .asc ("Dup" : String) "Dup" = -1
    rw [BookState.jsCmp, if_neg (lt_irrefl _)]
  · intro f a b
    rcases f with ⟨t, si, gi, sb, ord⟩
    cases sb <;> cases ord <;>
      simp only [BookState.jsCompare, BookState.jsCmp] <;>
      split <;> decide
